import Mathlib

/-!
Shallow embedding of `src/core/query_builder.py` (class `QueryBuilder`).

Records of the managed model are drawn from an arbitrary type `α`; a Django
`QuerySet` is modelled semantically as a `List α` of the records it would
yield.  A Django `Q` object is modelled as `Option (α → Bool)`: `none` is the
empty `Q()` (falsy in Python, identity for both `&` and `|` per
`Q._combine`), `some p` is a non-empty `Q` whose condition is the record
predicate `p`.
-/

namespace DjangoQB

/-- A Django `Q` object: `none` models the empty `Q()`; `some p` models a
non-empty `Q` object whose condition evaluates as the predicate `p`. -/
def QObj (α : Type) : Type := Option (α → Bool)

/-- Embeds Django `Q.__and__` (`q1 & q2`): `Q._combine` returns the other operand
when one side is the empty `Q()`, otherwise the conjunction. -/
def QObj.qand : QObj α → QObj α → QObj α
  | none, q => q
  | q, none => q
  | some p, some r => some (fun x => p x && r x)

/-- Embeds Django `Q.__or__` (`q1 | q2`): `Q._combine` returns the other operand
when one side is the empty `Q()`, otherwise the disjunction. -/
def QObj.qor : QObj α → QObj α → QObj α
  | none, q => q
  | q, none => q
  | some p, some r => some (fun x => p x || r x)

/-- Satisfaction of a `Q` object in the AND/filter channel, where the empty
`Q()` is the always-true identity (spec: "AND-identity = always-true"). -/
def QObj.keepSem : QObj α → α → Bool
  | none, _ => true
  | some p, x => p x

/-- Satisfaction of a `Q` object in the OR/exclude channel, where the empty
`Q()` is the always-false identity (spec: "OR-identity = always-false"). -/
def QObj.dropSem : QObj α → α → Bool
  | none, _ => false
  | some p, x => p x

/-- The record-type descriptor (`model_class`): `all` is what
`model_class.objects.all()` yields. -/
structure ModelClass (α : Type) where
  all : List α

/-- Python errors that the embedded operations can surface.
`configurationError` is modelled from the spec ("builder constructed without
a valid record-type descriptor"); no such class exists in the source and the
code never raises it. -/
inductive PyError where
  | attributeError (msg : String) : PyError
  | doesNotExist : PyError
  | multipleObjectsReturned : PyError
  | configurationError : PyError

/-- Embeds Django `QuerySet.get(**kwargs)` on the records `qs`, with the keyword
criteria modelled as the predicate `pred`: returns the unique match, raises
`DoesNotExist` when there is none, `MultipleObjectsReturned` otherwise. -/
def QuerySet.get (qs : List α) (pred : α → Bool) : Except PyError α :=
  match qs.filter pred with
  | [x] => .ok x
  | [] => .error .doesNotExist
  | _ => .error .multipleObjectsReturned

/-- Builder state: `queryset` is `self._queryset`, `q_filters` is
`self._q_filters` (starts as `Q()`), `q_excludes` is `self._q_excludes`
(starts as `Q()`). -/
structure QueryBuilder (α : Type) where
  model_class : Option (ModelClass α)
  queryset : List α
  q_filters : QObj α
  q_excludes : QObj α

/-- Embeds `model_class.objects.all()`; accessing `.objects` on `None` raises
`AttributeError` in Python. -/
def objectsAll : Option (ModelClass α) → Except PyError (List α)
  | none => .error (.attributeError "NoneType object has no attribute objects")
  | some m => .ok m.all

/-- Embeds `QueryBuilder.__init__`: `self._queryset = queryset or
model_class.objects.all()` — Python `or` adopts `queryset` only when it is
truthy (not `None` and non-empty); both pending `Q` accumulators start as
the empty `Q()`. -/
def QueryBuilder.init (mc : Option (ModelClass α)) (qs : Option (List α)) :
    Except PyError (QueryBuilder α) :=
  match qs with
  | some (x :: rest) => .ok ⟨mc, x :: rest, none, none⟩
  | _ => (objectsAll mc).map fun base => ⟨mc, base, none, none⟩

/-- Embeds `QueryBuilder.q_filter`: `self._q_filters &= q_obj`. -/
def QueryBuilder.q_filter (st : QueryBuilder α) (q : QObj α) : QueryBuilder α :=
  { st with q_filters := st.q_filters.qand q }

/-- Embeds `QueryBuilder.q_exclude`: `self._q_excludes |= q_obj`. -/
def QueryBuilder.q_exclude (st : QueryBuilder α) (q : QObj α) : QueryBuilder α :=
  { st with q_excludes := st.q_excludes.qor q }

/-- Embeds `QueryBuilder.or_filter(*q_objs)`: builds `or_q = Q()` then
`or_q |= q_obj` over the arguments, then `self._q_filters &= or_q`. -/
def QueryBuilder.or_filter (st : QueryBuilder α) (qs : List (QObj α)) : QueryBuilder α :=
  { st with q_filters := st.q_filters.qand (qs.foldl QObj.qor none) }

/-- The AND-narrowed collection: `self._queryset.filter(self._q_filters)`
when `self._q_filters` is truthy (a non-empty `Q`), else `self._queryset`
untouched — the first branch of `build`. -/
def QueryBuilder.andNarrowed (st : QueryBuilder α) : List α :=
  match st.q_filters with
  | none => st.queryset
  | some p => st.queryset.filter p

/-- Application of the two pending `Q` accumulators to a collection, exactly
as the body of `build` does: `filter` when `self._q_filters` is truthy, then
`exclude` when `self._q_excludes` is truthy. -/
def applyPending (f e : QObj α) (qs : List α) : List α :=
  let qs1 := match f with
    | none => qs
    | some p => qs.filter p
  match e with
  | none => qs1
  | some p => qs1.filter (fun x => ! p x)

/-- Embeds `QueryBuilder.build`: mutates `self._queryset` by applying the pending
filters then the pending excludes (each only when truthy) and returns it;
the second component is the builder state after the call (the accumulators
are NOT reset). -/
def QueryBuilder.build (st : QueryBuilder α) : List α × QueryBuilder α :=
  let qs2 := applyPending st.q_filters st.q_excludes st.queryset
  (qs2, { st with queryset := qs2 })

/-- Embeds `QueryBuilder.get(**kwargs)`: `self.build().get(**kwargs)`. -/
def QueryBuilder.get (st : QueryBuilder α) (pred : α → Bool) : Except PyError α :=
  QuerySet.get st.build.fst pred

/-- Embeds `QueryBuilder.first`: `self.build().first()` — Django `first` returns
`None` on an empty queryset. -/
def QueryBuilder.first (st : QueryBuilder α) : Option α :=
  st.build.fst.head?

/-- Embeds `QueryBuilder.count`: `self.build().count()`. -/
def QueryBuilder.count (st : QueryBuilder α) : Nat :=
  st.build.fst.length

/-- Embeds `QueryBuilder.exists`: `self.build().exists()`. -/
def QueryBuilder.existsRec (st : QueryBuilder α) : Bool :=
  ! st.build.fst.isEmpty

end DjangoQB

namespace DjangoQB

theorem QObj.keepSem_qand (p q : QObj α) (x : α) :
    QObj.keepSem (p.qand q) x = (QObj.keepSem p x && QObj.keepSem q x) := by
  cases p <;> cases q <;> simp [QObj.qand, QObj.keepSem]

theorem QObj.dropSem_qor (p q : QObj α) (x : α) :
    QObj.dropSem (p.qor q) x = (QObj.dropSem p x || QObj.dropSem q x) := by
  cases p <;> cases q <;> simp [QObj.qor, QObj.dropSem]

theorem QObj.qand_none (p : QObj α) : p.qand none = p := by
  cases p <;> rfl

theorem mem_applyPending (f e : QObj α) (qs : List α) (x : α) :
    x ∈ applyPending f e qs ↔
      x ∈ qs ∧ QObj.keepSem f x = true ∧ QObj.dropSem e x = false := by
  cases f <;> cases e <;>
    simp [applyPending, QObj.keepSem, QObj.dropSem, List.mem_filter, and_assoc]
  tauto

theorem mem_build (st : QueryBuilder α) (x : α) :
    x ∈ st.build.fst ↔
      x ∈ st.queryset ∧ QObj.keepSem st.q_filters x = true ∧
        QObj.dropSem st.q_excludes x = false :=
  mem_applyPending st.q_filters st.q_excludes st.queryset x

theorem mem_andNarrowed (st : QueryBuilder α) (x : α) :
    x ∈ st.andNarrowed ↔ x ∈ st.queryset ∧ QObj.keepSem st.q_filters x = true := by
  cases h : st.q_filters <;>
    simp [QueryBuilder.andNarrowed, h, QObj.keepSem, List.mem_filter]

end DjangoQB

namespace DjangoQB

/-- C1: for every base collection `C` (the builder's `queryset`),
accumulated AND-predicate `A` (`q_filters`) and accumulated OR-exclude
predicate `O` (`q_excludes`), `build` returns `(C ∩ A) \ O`: membership in
the resolved collection is exactly membership in `C`, intersected with
satisfaction of `A`, with the records satisfying `O` then removed — the AND
channel is applied by intersection first and the OR-exclude channel by
removal second, never in the reverse order. -/
theorem c1_build_resolves_and_then_exclude (st : QueryBuilder α) (x : α) :
    x ∈ st.build.fst ↔
      (x ∈ st.queryset ∧ QObj.keepSem st.q_filters x = true) ∧
        ¬ QObj.dropSem st.q_excludes x = true := by
  rw [mem_build]
  simp [and_assoc]

/-- C2: chaining `q_filter p` then `q_filter q` and resolving yields the
same final membership as a single `q_filter` with the conjunction
`p.qand q`, and the order of the two `q_filter` calls does not affect final
membership. -/
theorem c2_q_filter_conjunction_order_irrelevant (st : QueryBuilder α)
    (p q : QObj α) (x : α) :
    (x ∈ ((st.q_filter p).q_filter q).build.fst ↔
        x ∈ (st.q_filter (p.qand q)).build.fst) ∧
      (x ∈ ((st.q_filter p).q_filter q).build.fst ↔
        x ∈ ((st.q_filter q).q_filter p).build.fst) := by
  simp only [mem_build, QueryBuilder.q_filter, QObj.keepSem_qand,
    Bool.and_eq_true]
  constructor <;> constructor <;> intro h <;> tauto

/-- C3 (amended): chaining `q_exclude p` then `q_exclude q` and resolving
removes from the AND-narrowed collection exactly the records matching `p`,
matching `q`, or matching the builder's previously accumulated OR-exclude
predicate; only when that previous accumulator is still the identity `Q()`
is the removed set exactly the union of `p` and `q`. -/
theorem c3_q_exclude_accumulates_union (st : QueryBuilder α)
    (p q : QObj α) (x : α) :
    x ∈ ((st.q_exclude p).q_exclude q).build.fst ↔
      x ∈ st.andNarrowed ∧
        ¬ (QObj.dropSem st.q_excludes x = true ∨ QObj.dropSem p x = true ∨
            QObj.dropSem q x = true) := by
  simp only [mem_build, QueryBuilder.q_exclude, QObj.dropSem_qor,
    mem_andNarrowed, Bool.or_eq_false_iff]
  constructor <;> intro h <;>
    simp only [not_or, Bool.not_eq_true] at * <;> tauto

/-- C3 counterexample: in the builder state with base collection `[1, 2]`
and an already-accumulated OR-exclude predicate matching `1`, chaining
`q_exclude` with predicates matching only `3` and only `4` and resolving
does NOT retain the record `1`, although `1` lies in the AND-narrowed
collection and matches neither of the two newly excluded predicates — so
the claim fails for builder states whose pending OR-exclude accumulator is
not the identity. -/
theorem c3_counterexample :
    1 ∈ (⟨none, [1, 2], none, some (fun x => x == 1)⟩ :
          QueryBuilder Nat).andNarrowed ∧
      QObj.dropSem (some (fun x : Nat => x == 3)) 1 = false ∧
      QObj.dropSem (some (fun x : Nat => x == 4)) 1 = false ∧
      1 ∉ (((⟨none, [1, 2], none, some (fun x => x == 1)⟩ :
              QueryBuilder Nat).q_exclude
            (some (fun x => x == 3))).q_exclude
          (some (fun x => x == 4))).build.fst := by
  refine ⟨by decide, rfl, rfl, by decide⟩

/-- C4: `or_filter` with the two predicates `a, b` followed by resolution
yields the same final membership (in fact the same resolved list) as
`q_filter` with the single disjunction `a.qor b` followed by resolution. -/
theorem c4_or_filter_is_q_filter_of_disjunction (st : QueryBuilder α)
    (a b : QObj α) :
    (st.or_filter [a, b]).build.fst = (st.q_filter (a.qor b)).build.fst := by
  have h : ([a, b] : List (QObj α)).foldl QObj.qor none = a.qor b := by
    cases a <;> cases b <;> rfl
  simp only [QueryBuilder.or_filter, QueryBuilder.q_filter, h]

/-- C5 (amended): on a builder whose resolved collection is empty, `first`
returns the empty indicator `none` and never raises, but `get` does NOT
return an empty indicator: it raises `DoesNotExist` (Django
`QuerySet.get` raises when no record matches). -/
theorem c5_first_none_but_get_raises_on_empty (st : QueryBuilder α)
    (pred : α → Bool) (h : st.build.fst = []) :
    st.first = none ∧ st.get pred = .error .doesNotExist := by
  refine ⟨?_, ?_⟩
  · simp [QueryBuilder.first, h]
  · simp [QueryBuilder.get, QuerySet.get, h]

/-- C5 witness: the fresh builder over the empty base collection resolves
to the empty collection, and on it `first` yields `none` while `get`
yields the `DoesNotExist` error. -/
theorem c5_witness :
    (⟨none, [], none, none⟩ : QueryBuilder Nat).build.fst = [] ∧
      ((⟨none, [], none, none⟩ : QueryBuilder Nat).first = none ∧
        (⟨none, [], none, none⟩ : QueryBuilder Nat).get (fun _ => true) =
          .error .doesNotExist) :=
  ⟨rfl, c5_first_none_but_get_raises_on_empty ⟨none, [], none, none⟩
    (fun _ => true) rfl⟩

/-- C5 counterexample: on the builder over the empty base collection, the
terminal operation `get` raises the `DoesNotExist` error rather than
returning an empty indicator, refuting "get_one (get) and first return the
empty indicator and never raise an error". -/
theorem c5_counterexample :
    (⟨none, [], none, none⟩ : QueryBuilder Nat).get (fun _ => true) =
      .error PyError.doesNotExist := rfl

/-- C6 (amended): constructing with `model_class = None` does not raise
`ConfigurationError`: when a truthy (non-empty) queryset is supplied the
construction succeeds outright and adopts it, and only when the supplied
queryset is `None` or empty does the fallback `model_class.objects.all()`
raise `AttributeError`. -/
theorem c6_init_without_model_class (α : Type) :
    (∀ (x : α) (rest : List α),
        QueryBuilder.init none (some (x :: rest)) =
          .ok ⟨none, x :: rest, none, none⟩) ∧
      QueryBuilder.init (α := α) none none =
        .error (.attributeError "NoneType object has no attribute objects") ∧
      QueryBuilder.init (α := α) none (some []) =
        .error (.attributeError "NoneType object has no attribute objects") :=
  ⟨fun _ _ => rfl, rfl, rfl⟩

/-- C6 counterexample: constructing with no record-type descriptor
(`model_class = None`) but a non-empty supplied queryset succeeds with no
error at all — in particular it does not fail with `ConfigurationError`. -/
theorem c6_counterexample :
    QueryBuilder.init (α := Nat) none (some [5]) =
      .ok ⟨none, [5], none, none⟩ := rfl

/-- C7: the deferred-combination operations `q_filter` and `q_exclude`
modify only their own pending accumulator: each leaves `queryset` (the base
collection) and `model_class` unchanged, and each leaves the other pending
accumulator unchanged — so neither pending predicate is applied to the base
collection before `build` is called. -/
theorem c7_deferred_ops_touch_only_their_accumulator (st : QueryBuilder α)
    (q : QObj α) :
    (st.q_filter q).queryset = st.queryset ∧
      (st.q_filter q).q_excludes = st.q_excludes ∧
      (st.q_filter q).model_class = st.model_class ∧
      (st.q_exclude q).queryset = st.queryset ∧
      (st.q_exclude q).q_filters = st.q_filters ∧
      (st.q_exclude q).model_class = st.model_class :=
  ⟨rfl, rfl, rfl, rfl, rfl, rfl⟩

/-- C8: `build` does not clear the pending accumulators: for every builder
with a non-identity pending AND or OR-exclude predicate, after one `build`
the state keeps both accumulators verbatim and its queryset is the resolved
collection, so a second `build` re-applies the same pending predicates to
the already-resolved collection. -/
theorem c8_build_does_not_clear_pending (st : QueryBuilder α)
    (_h : st.q_filters ≠ none ∨ st.q_excludes ≠ none) :
    st.build.snd.q_filters = st.q_filters ∧
      st.build.snd.q_excludes = st.q_excludes ∧
      st.build.snd.queryset = st.build.fst ∧
      st.build.snd.build.fst =
        applyPending st.q_filters st.q_excludes st.build.fst :=
  ⟨rfl, rfl, rfl, rfl⟩

/-- Concrete builder state with a non-identity pending AND predicate, used
to witness the hypothesis of the C8 theorem. -/
def c8Input : QueryBuilder Nat :=
  ⟨none, [1, 2, 3], some (fun x => decide (x ≤ 2)), none⟩

/-- C8 witness: the concrete builder `c8Input` has a non-identity pending
AND predicate, and after `build` its accumulators are unchanged, its
queryset is the resolved collection, and a second `build` re-applies the
pending predicates to it. -/
theorem c8_witness :
    (c8Input.q_filters ≠ none ∨ c8Input.q_excludes ≠ none) ∧
      (c8Input.build.snd.q_filters = c8Input.q_filters ∧
        c8Input.build.snd.q_excludes = c8Input.q_excludes ∧
        c8Input.build.snd.queryset = c8Input.build.fst ∧
        c8Input.build.snd.build.fst =
          applyPending c8Input.q_filters c8Input.q_excludes
            c8Input.build.fst) :=
  ⟨Or.inl (Option.some_ne_none _),
    c8_build_does_not_clear_pending c8Input (Or.inl (Option.some_ne_none _))⟩

/-- C9: when a pre-existing queryable collection is supplied to the
constructor but is empty, the builder does not adopt it: its base
collection becomes `model_class.objects.all()` (all records of this type)
instead of the supplied empty collection. -/
theorem c9_empty_supplied_queryset_not_adopted (m : ModelClass α) :
    QueryBuilder.init (some m) (some []) =
      .ok ⟨some m, m.all, none, none⟩ := rfl

/-- C10: `or_filter` with zero predicates is a no-op: it leaves the builder
state entirely unchanged (the empty OR-group is the identity `Q()`, and
AND-combining it changes nothing), so resolving afterwards yields the same
membership as resolving alone. -/
theorem c10_empty_or_filter_is_noop (st : QueryBuilder α) :
    st.or_filter [] = st ∧ (st.or_filter []).build.fst = st.build.fst := by
  have h : st.or_filter [] = st := by
    show { st with q_filters := st.q_filters.qand none } = st
    rw [QObj.qand_none]
  exact ⟨h, by rw [h]⟩

end DjangoQB
